import Mathlib

/-!
Shallow embedding of `src/src/core/layer.js` (the `Layer` class of the
wx-caman layered pixel-compositing engine).

Buffers are `Uint8ClampedArray`s in the source: flat RGBA byte arrays whose
length is a multiple of 4.  The embedding groups each aligned run of four
bytes `i, i+1, i+2, i+3` into one `Pixel`, so a buffer is a `List Pixel`;
the JS per-pixel loop `for (i = 0; i < data.length; i += 4)` becomes
structural recursion over that list.  All channel arithmetic in
`applyToParent` happens on JS numbers, embedded as `ℚ`; the write-back
into the `Uint8ClampedArray` is ECMAScript `ToUint8Clamp` (clamp to
[0, 255], round half to even), embedded as `toUint8Clamp`.
-/

/-- One RGBA pixel of a buffer: four unsigned byte channels (red, green,
blue, alpha), the aligned group `data[i], data[i+1], data[i+2], data[i+3]`
of the flat JS array. -/
structure Pixel where
  r : ℕ
  g : ℕ
  b : ℕ
  a : ℕ
deriving DecidableEq, Repr

/-- The value a blend function returns: JS-number channels `r`, `g`, `b`
and an optional alpha (`none` embeds a JS object with no `a` property, as
alpha-agnostic blend functions return). -/
structure BlendResult where
  r : ℚ
  g : ℚ
  b : ℚ
  a : Option ℚ
deriving DecidableEq

/-- A blend function: a pure mapping `(rgbaLayer, rgbaParent) ↦ result`. -/
abbrev BlendFn := Pixel → Pixel → BlendResult

/-- Modelled from the spec: the blend registry (`Blender` of
`src/core/blender.js` is not under `src/`).  §2: "BlendRegistry (external):
name → blend function mapping"; §7: an unknown blend mode is a
configuration error surfaced at composite time, not silently substituted.
The registry is embedded as a partial map from names to blend functions,
and `Blender.execute` on an unregistered name is the failure case. -/
abbrev Registry := String → Option BlendFn

/-- Modelled from the spec: `Util.clampRGB` (`src/core/util.js` is not
under `src/`; §1 lists "generic numeric clamping utilities" as external,
§4.3 step 5 clamps each channel independently to [0, 255]). -/
def Util.clampRGB (x : ℚ) : ℚ := max 0 (min 255 x)

/-- ECMAScript `ToUint8Clamp`: the store semantics of a
`Uint8ClampedArray` element write — clamp to [0, 255], then round to the
nearest integer, ties to even. -/
def toUint8Clamp (x : ℚ) : ℕ :=
  if x ≤ 0 then 0
  else if 255 ≤ x then 255
  else if x < ((⌊x⌋.toNat : ℚ) + 1 / 2) then ⌊x⌋.toNat
  else if ((⌊x⌋.toNat : ℚ) + 1 / 2) < x then ⌊x⌋.toNat + 1
  else if ⌊x⌋.toNat % 2 = 0 then ⌊x⌋.toNat else ⌊x⌋.toNat + 1

/-- The engine state the layer reads through its back-reference `this.c`
(the engine itself is external, spec §6): `pixelData` is the buffer the
engine currently exposes as active/top-of-stack, `pixelStack` the ordered
sequence of buffers, base first. -/
structure CamanState where
  pixelData : List Pixel
  pixelStack : List (List Pixel)

/-- The parent buffer used by `applyToParent`:
`this.c.pixelStack[this.c.pixelStack.length - 1]`. -/
def CamanState.parentData (c : CamanState) : List Pixel :=
  c.pixelStack.getD (c.pixelStack.length - 1) []

/-- The mutable per-layer options of `layer.js`: `blendingMode`
(default `"normal"`) and `opacity` (default `1.0`). -/
structure LayerOptions where
  blendingMode : String
  opacity : ℚ
deriving DecidableEq

/-- The `Layer` class: options, unique id, dimensions, and the layer's own
pixel buffer (allocated zero-filled at construction, sized like the
engine's buffer). -/
structure Layer where
  options : LayerOptions
  layerID : ℕ
  width : ℕ
  height : ℕ
  pixelData : List Pixel
deriving DecidableEq

/-- `setBlendingMode (mode)`: stores the mode name verbatim in
`this.options.blendingMode` and returns `this`. -/
def Layer.setBlendingMode (l : Layer) (mode : String) : Layer :=
  { l with options := { l.options with blendingMode := mode } }

/-- `opacity (opacity)`: stores `opacity / 100` in `this.options.opacity`
(no clamping) and returns `this`. -/
def Layer.opacity (l : Layer) (op : ℚ) : Layer :=
  { l with options := { l.options with opacity := op / 100 } }

/-- One iteration of the `copyParent` loop at pixel index `k`: the source
reads `parentData[i..i+3]` where `parentData = this.pixelData` — the
layer's own buffer — and writes the four channels back into
`this.pixelData[i..i+3]`, i.e. it assigns the pixel to itself.  An
out-of-bounds index is a no-op, matching the `Uint8ClampedArray` write
semantics (out-of-bounds read and write on the same array). -/
def copyStep (buf : List Pixel) (k : ℕ) : List Pixel :=
  buf.set k (buf.getD k ⟨0, 0, 0, 0⟩)

/-- `copyParent ()`: loops `i` from 0 below `this.c.pixelData.length` in
steps of 4 — one iteration per pixel of the engine's buffer — copying
`parentData[i..i+3]` into `this.pixelData[i..i+3]`, where the source binds
`const parentData = this.pixelData` (the layer's own buffer, not the
engine's), and returns `this`. -/
def Layer.copyParent (l : Layer) (c : CamanState) : Layer :=
  { l with pixelData := (List.range c.pixelData.length).foldl copyStep l.pixelData }

/-- The alpha defaulting step `if (!result.a) { result.a = rgbaLayer.a }`:
`!result.a` is true in JS exactly when the `a` property is absent
(`undefined`) or its number value is falsy, i.e. `0`. -/
def defaultAlpha (a : Option ℚ) (layerA : ℕ) : ℚ :=
  match a with
  | none => (layerA : ℚ)
  | some x => if x = 0 then (layerA : ℚ) else x

/-- The body of the `applyToParent` loop for one pixel: run the blend
function on `(rgbaLayer, rgbaParent)`, clamp `result.r/g/b` with
`Util.clampRGB`, default the alpha, and write
`parent[ch] := rgbaParent.ch - ((rgbaParent.ch - result.ch) * (opacity * (result.a / 255)))`
for `ch ∈ {r, g, b}` through the `Uint8ClampedArray` store; the parent
alpha byte is not written. -/
def compositePixel (f : BlendFn) (opacity : ℚ) (rgbaLayer rgbaParent : Pixel) : Pixel :=
  let result := f rgbaLayer rgbaParent
  let cr := Util.clampRGB result.r
  let cg := Util.clampRGB result.g
  let cb := Util.clampRGB result.b
  let ca := defaultAlpha result.a rgbaLayer.a
  { r := toUint8Clamp ((rgbaParent.r : ℚ) - (((rgbaParent.r : ℚ) - cr) * (opacity * (ca / 255))))
    g := toUint8Clamp ((rgbaParent.g : ℚ) - (((rgbaParent.g : ℚ) - cg) * (opacity * (ca / 255))))
    b := toUint8Clamp ((rgbaParent.b : ℚ) - (((rgbaParent.b : ℚ) - cb) * (opacity * (ca / 255))))
    a := rgbaParent.a }

/-- Outcome of `applyToParent` on the parent buffer: `ok` is normal
completion with the final buffer contents, `err` is a thrown error
(unregistered blend mode inside the loop), carrying the parent buffer as
it stood at the moment of the throw — the source mutates it in place. -/
inductive CompositeResult where
  | ok (parentData : List Pixel)
  | err (parentData : List Pixel)
deriving DecidableEq

/-- The parent buffer carried by either outcome. -/
def CompositeResult.buffer : CompositeResult → List Pixel
  | .ok p => p
  | .err p => p

/-- The `applyToParent` loop over the remaining layer and parent pixels.
Each iteration resolves `Blender.execute (this.options.blendingMode, …)`;
an unregistered mode throws there, before any write of that iteration
(so on the very first iteration, with the parent buffer untouched).  When
the parent list is exhausted first, the source's remaining iterations read
`undefined` and their writes land out of bounds (ignored), so the result
stays the empty remainder. -/
def applyLoop (reg : Registry) (mode : String) (opacity : ℚ) :
    List Pixel → List Pixel → CompositeResult
  | [], parentData => .ok parentData
  | _ :: ls, [] =>
    match reg mode with
    | none => .err []
    | some _ => applyLoop reg mode opacity ls []
  | lp :: ls, pp :: ps =>
    match reg mode with
    | none => .err (pp :: ps)
    | some f =>
      match applyLoop reg mode opacity ls ps with
      | .ok ps' => .ok (compositePixel f opacity lp pp :: ps')
      | .err ps' => .err (compositePixel f opacity lp pp :: ps')

/-- `applyToParent ()`: reads `parentData` from
`this.c.pixelStack[this.c.pixelStack.length - 1]` and `layerData` from
`this.c.pixelData`, then runs the per-pixel compositing loop over
`layerData.length`, mutating the parent buffer in place.  The returned
`CompositeResult` is the final state of that parent buffer (or its state
at the throw, for an unregistered blend mode). -/
def Layer.applyToParent (l : Layer) (reg : Registry) (c : CamanState) : CompositeResult :=
  applyLoop reg l.options.blendingMode l.options.opacity c.pixelData c.parentData

/-- The pure compositing of a layer buffer into a parent buffer with a
resolved blend function: pointwise `compositePixel`, keeping the parent's
tail when the layer is shorter and truncating at the parent's end. -/
def blendLoop (f : BlendFn) (opacity : ℚ) : List Pixel → List Pixel → List Pixel
  | [], parentData => parentData
  | _ :: _, [] => []
  | lp :: ls, pp :: ps => compositePixel f opacity lp pp :: blendLoop f opacity ls ps

/-! Helper lemmas about the embedded operations. -/

theorem toUint8Clamp_le (x : ℚ) : toUint8Clamp x ≤ 255 := by
  unfold toUint8Clamp
  split
  · exact Nat.zero_le 255
  · split
    · exact le_refl 255
    · rename_i h0 h255
      have hx : x < 255 := lt_of_not_le h255
      have hfl : ⌊x⌋ < 255 := Int.floor_lt.mpr (by exact_mod_cast hx)
      have h2 : ⌊x⌋.toNat ≤ 254 := by omega
      split
      · omega
      · split
        · omega
        · split <;> omega

theorem toUint8Clamp_natCast (n : ℕ) (h : n ≤ 255) : toUint8Clamp (n : ℚ) = n := by
  rcases Nat.eq_zero_or_pos n with rfl | hn
  · norm_num [toUint8Clamp]
  · rcases eq_or_lt_of_le h with rfl | h255
    · norm_num [toUint8Clamp]
    · have h0 : ¬ ((n : ℚ) ≤ 0) := not_le.mpr (by exact_mod_cast hn)
      have h1 : ¬ ((255 : ℚ) ≤ (n : ℚ)) := not_le.mpr (by exact_mod_cast h255)
      have htn : (⌊(n : ℚ)⌋).toNat = n := by
        rw [Int.floor_natCast n]
        exact Int.toNat_natCast n
      have hlt : (n : ℚ) < ((⌊(n : ℚ)⌋.toNat : ℕ) : ℚ) + 1 / 2 := by
        rw [htn]
        norm_num
      simp [toUint8Clamp, h0, h1, hlt, htn]

theorem set_getD_self {α : Type} (l : List α) (k : ℕ) (d : α) :
    l.set k (l.getD k d) = l := by
  induction l generalizing k with
  | nil => simp
  | cons a t ih =>
    cases k with
    | zero => simp [List.getD]
    | succ m =>
      show a :: t.set m ((a :: t).getD (m + 1) d) = a :: t
      rw [List.getD_cons_succ, ih]

theorem foldl_copyStep (ks : List ℕ) (buf : List Pixel) : ks.foldl copyStep buf = buf := by
  induction ks generalizing buf with
  | nil => rfl
  | cons k t ih =>
    rw [List.foldl_cons, show copyStep buf k = buf from set_getD_self buf k _]
    exact ih buf

theorem compositePixel_a (f : BlendFn) (op : ℚ) (lp pp : Pixel) :
    (compositePixel f op lp pp).a = pp.a := rfl

theorem blendLoop_nil (f : BlendFn) (op : ℚ) (L : List Pixel) : blendLoop f op L [] = [] := by
  cases L <;> rfl

theorem applyLoop_some (reg : Registry) (mode : String) (f : BlendFn) (op : ℚ)
    (h : reg mode = some f) :
    ∀ L P : List Pixel, applyLoop reg mode op L P = .ok (blendLoop f op L P) := by
  intro L
  induction L with
  | nil => intro P; rfl
  | cons lp ls ih =>
    intro P
    cases P with
    | nil =>
      rw [blendLoop_nil]
      simp only [applyLoop, h]
      rw [ih [], blendLoop_nil]
    | cons pp ps =>
      simp only [applyLoop, h, ih ps]
      rfl

theorem applyLoop_err (reg : Registry) (mode : String) (op : ℚ) :
    ∀ (L P res : List Pixel), applyLoop reg mode op L P = .err res → res = P := by
  intro L
  induction L with
  | nil =>
    intro P res h
    simp [applyLoop] at h
  | cons lp ls ih =>
    intro P res h
    cases hm : reg mode with
    | none =>
      cases P with
      | nil =>
        simp only [applyLoop, hm] at h
        injection h with h
        exact h.symm
      | cons pp ps =>
        simp only [applyLoop, hm] at h
        injection h with h
        exact h.symm
    | some f =>
      rw [applyLoop_some reg mode f op hm] at h
      exact absurd h (by simp)

theorem blendLoop_get? (f : BlendFn) (op : ℚ) :
    ∀ (L P : List Pixel) (k : ℕ) (lp pp : Pixel),
      L.get? k = some lp → P.get? k = some pp →
      (blendLoop f op L P).get? k = some (compositePixel f op lp pp) := by
  intro L
  induction L with
  | nil =>
    intro P k lp pp hL _
    simp at hL
  | cons x xs ih =>
    intro P k lp pp hL hP
    cases P with
    | nil => simp at hP
    | cons y ys =>
      cases k with
      | zero =>
        simp only [List.get?_cons_zero, Option.some.injEq] at hL hP
        subst hL
        subst hP
        rfl
      | succ n =>
        simp only [List.get?_cons_succ] at hL hP
        show (blendLoop f op xs ys).get? n = _
        exact ih ys n lp pp hL hP

theorem blendLoop_alpha (f : BlendFn) (op : ℚ) :
    ∀ (L P : List Pixel) (k : ℕ),
      ((blendLoop f op L P).get? k).map Pixel.a = (P.get? k).map Pixel.a := by
  intro L
  induction L with
  | nil => intro P k; rfl
  | cons x xs ih =>
    intro P k
    cases P with
    | nil => rfl
    | cons y ys =>
      cases k with
      | zero => simp [blendLoop, compositePixel_a]
      | succ n =>
        show ((blendLoop f op xs ys).get? n).map Pixel.a = _
        exact ih ys n

theorem compositePixel_zero (f : BlendFn) (lp pp : Pixel)
    (h1 : pp.r ≤ 255) (h2 : pp.g ≤ 255) (h3 : pp.b ≤ 255) :
    compositePixel f 0 lp pp = pp := by
  unfold compositePixel
  simp only [zero_mul, mul_zero, sub_zero]
  rw [toUint8Clamp_natCast _ h1, toUint8Clamp_natCast _ h2, toUint8Clamp_natCast _ h3]

theorem blendLoop_zero (f : BlendFn) :
    ∀ (L P : List Pixel), (∀ p ∈ P, p.r ≤ 255 ∧ p.g ≤ 255 ∧ p.b ≤ 255) →
      blendLoop f 0 L P = P := by
  intro L
  induction L with
  | nil => intro P _; rfl
  | cons x xs ih =>
    intro P hP
    cases P with
    | nil => rfl
    | cons y ys =>
      have hy := hP y (List.mem_cons_self y ys)
      show compositePixel f 0 x y :: blendLoop f 0 xs ys = y :: ys
      rw [compositePixel_zero f x y hy.1 hy.2.1 hy.2.2,
        ih ys (fun p hp => hP p (List.mem_cons_of_mem y hp))]

theorem blendLoop_rgb_le (f : BlendFn) (op : ℚ) :
    ∀ (L P : List Pixel), (∀ p ∈ P, p.r ≤ 255 ∧ p.g ≤ 255 ∧ p.b ≤ 255) →
      ∀ q ∈ blendLoop f op L P, q.r ≤ 255 ∧ q.g ≤ 255 ∧ q.b ≤ 255 := by
  intro L
  induction L with
  | nil => intro P hP; exact hP
  | cons x xs ih =>
    intro P hP q hq
    cases P with
    | nil => simp [blendLoop_nil] at hq
    | cons y ys =>
      rcases List.mem_cons.mp hq with rfl | hq'
      · exact ⟨toUint8Clamp_le _, toUint8Clamp_le _, toUint8Clamp_le _⟩
      · exact ih ys (fun p hp => hP p (List.mem_cons_of_mem y hp)) q hq'

/-! Concrete blend functions, registries, layers and engine states used to
instantiate the theorems below. -/

/-- The `"normal"` blend mode as the spec scenario defines it:
`result = layerRGBA` (all four channels of the layer pixel). -/
def normalBlend : BlendFn := fun rgbaLayer _ =>
  { r := rgbaLayer.r, g := rgbaLayer.g, b := rgbaLayer.b, a := some (rgbaLayer.a : ℚ) }

/-- A registry with exactly the `"normal"` mode registered. -/
def scenarioRegistry : Registry := fun name => if name = "normal" then some normalBlend else none

/-- The spec scenario's layer: pixel `(200, 50, 0, 255)`, mode `"normal"`,
opacity `0.5`. -/
def scenarioLayer : Layer :=
  { options := { blendingMode := "normal", opacity := 1 / 2 }, layerID := 0, width := 1,
    height := 1, pixelData := [⟨200, 50, 0, 255⟩] }

/-- The spec scenario's engine state: the layer's buffer is the exposed
`pixelData`, the parent pixel `(100, 100, 100, 255)` sits on top of the
stack. -/
def scenarioState : CamanState :=
  { pixelData := [⟨200, 50, 0, 255⟩], pixelStack := [[⟨100, 100, 100, 255⟩]] }

/-- A blend function that produces the layer's colour channels but alpha
`0` — a falsy but present alpha value. -/
def zeroAlphaBlend : BlendFn := fun rgbaLayer _ =>
  { r := rgbaLayer.r, g := rgbaLayer.g, b := rgbaLayer.b, a := some 0 }

/-- A registry with exactly the `"zalpha"` mode registered. -/
def zeroAlphaRegistry : Registry := fun name => if name = "zalpha" then some zeroAlphaBlend else none

/-- A layer blending with `zeroAlphaBlend` at opacity `1`. -/
def zeroAlphaLayer : Layer :=
  { options := { blendingMode := "zalpha", opacity := 1 }, layerID := 0, width := 1,
    height := 1, pixelData := [⟨200, 50, 0, 255⟩] }

/-- A registry with no mode registered at all. -/
def emptyRegistry : Registry := fun _ => none

/-- A blend function returning channel values far outside `[0, 255]`. -/
def wildBlend : BlendFn := fun _ _ => { r := 1000, g := -40, b := 512, a := some 255 }

/-- A registry with exactly the `"wild"` mode registered. -/
def wildRegistry : Registry := fun name => if name = "wild" then some wildBlend else none

/-- A layer blending with `wildBlend` at opacity `1`. -/
def wildLayer : Layer :=
  { options := { blendingMode := "wild", opacity := 1 }, layerID := 0, width := 1,
    height := 1, pixelData := [⟨200, 50, 0, 255⟩] }

/-- A layer with opacity `0` and mode `"normal"`. -/
def zeroOpacityLayer : Layer :=
  { options := { blendingMode := "normal", opacity := 0 }, layerID := 0, width := 1,
    height := 1, pixelData := [⟨200, 50, 0, 255⟩] }

/-- A layer whose buffer is the zero-filled allocation. -/
def blankLayer : Layer :=
  { options := { blendingMode := "normal", opacity := 1 }, layerID := 0, width := 1,
    height := 1, pixelData := [⟨0, 0, 0, 0⟩] }

/-- An engine state whose exposed buffer differs from `blankLayer`'s. -/
def brightState : CamanState :=
  { pixelData := [⟨9, 8, 7, 6⟩], pixelStack := [] }

/-! The claims. -/

/-- Claim C1: for every registered blend mode and every pixel index, the
pixel `applyToParent` writes into the parent buffer is
`parent[ch] - (parent[ch] - result[ch]) * w` on each of R, G, B, with
`result` the clamped blend output, `w = options.opacity * (result.a / 255)`
(alpha defaulted as the source does), stored through the clamped-byte
write; the alpha channel keeps the parent's value. -/
theorem applyToParent_lerp (reg : Registry) (f : BlendFn) (l : Layer) (c : CamanState)
    (hf : reg l.options.blendingMode = some f)
    (k : ℕ) (lp pp : Pixel)
    (hl : c.pixelData.get? k = some lp)
    (hp : c.parentData.get? k = some pp) :
    ∃ out, l.applyToParent reg c = .ok out ∧
      out.get? k = some
        { r := toUint8Clamp ((pp.r : ℚ) - (((pp.r : ℚ) - Util.clampRGB (f lp pp).r) *
            (l.options.opacity * (defaultAlpha (f lp pp).a lp.a / 255))))
          g := toUint8Clamp ((pp.g : ℚ) - (((pp.g : ℚ) - Util.clampRGB (f lp pp).g) *
            (l.options.opacity * (defaultAlpha (f lp pp).a lp.a / 255))))
          b := toUint8Clamp ((pp.b : ℚ) - (((pp.b : ℚ) - Util.clampRGB (f lp pp).b) *
            (l.options.opacity * (defaultAlpha (f lp pp).a lp.a / 255))))
          a := pp.a } := by
  refine ⟨blendLoop f l.options.opacity c.pixelData c.parentData, ?_, ?_⟩
  · exact applyLoop_some reg l.options.blendingMode f l.options.opacity hf c.pixelData c.parentData
  · rw [blendLoop_get? f l.options.opacity c.pixelData c.parentData k lp pp hl hp]
    rfl

/-- Witness for C1: the spec scenario — parent `(100, 100, 100, 255)`,
layer `(200, 50, 0, 255)`, mode `"normal"`, opacity `0.5` — produces the
parent pixel `(150, 75, 50, 255)`. -/
theorem applyToParent_lerp_witness :
    scenarioRegistry scenarioLayer.options.blendingMode = some normalBlend ∧
    (∃ out, Layer.applyToParent scenarioLayer scenarioRegistry scenarioState = .ok out ∧
      out.get? 0 = some ⟨150, 75, 50, 255⟩) := by
  refine ⟨rfl, ?_⟩
  obtain ⟨out, h1, h2⟩ := applyToParent_lerp scenarioRegistry normalBlend scenarioLayer
    scenarioState rfl 0 ⟨200, 50, 0, 255⟩ ⟨100, 100, 100, 255⟩ rfl rfl
  refine ⟨out, h1, ?_⟩
  rw [h2]
  norm_num [toUint8Clamp, Util.clampRGB, defaultAlpha, normalBlend, scenarioLayer, Int.toNat]

/-- Claim C2 (failing input): `copyParent` does not copy the engine's
exposed buffer.  With the engine exposing `(9, 8, 7, 6)` and the layer's
buffer still the zero-filled allocation, `copyParent` leaves the layer at
`(0, 0, 0, 0)` — the source binds the copy source `parentData` to
`this.pixelData` (the layer's own buffer) instead of `this.c.pixelData`,
contradicting its own comment "Copies the contents of the parent layer to
this layer". -/
theorem copyParent_ignores_engine_buffer :
    (Layer.copyParent blankLayer brightState).pixelData = [⟨0, 0, 0, 0⟩] ∧
    (Layer.copyParent blankLayer brightState).pixelData ≠ brightState.pixelData := by
  constructor
  · decide
  · decide

/-- Claim C10: for every layer and engine state, `copyParent` copies each
pixel of the layer's own buffer onto itself, leaving `pixelData`
byte-for-byte unchanged, and returns the layer. -/
theorem copyParent_preserves_pixelData (l : Layer) (c : CamanState) : l.copyParent c = l := by
  unfold Layer.copyParent
  rw [foldl_copyStep]

/-- Claim C9: `opacity (percent)` stores exactly `percent / 100` (for any
rational input, without clamping) and changes nothing else of the layer;
`setBlendingMode (name)` stores the name verbatim without validation and
changes nothing else of the layer. -/
theorem setters_store_verbatim (l : Layer) (p : ℚ) (m : String) :
    (l.opacity p).options.opacity = p / 100 ∧
    (l.opacity p).options.blendingMode = l.options.blendingMode ∧
    (l.opacity p).pixelData = l.pixelData ∧
    (l.opacity p).layerID = l.layerID ∧
    (l.opacity p).width = l.width ∧
    (l.opacity p).height = l.height ∧
    (l.setBlendingMode m).options.blendingMode = m ∧
    (l.setBlendingMode m).options.opacity = l.options.opacity ∧
    (l.setBlendingMode m).pixelData = l.pixelData ∧
    (l.setBlendingMode m).layerID = l.layerID ∧
    (l.setBlendingMode m).width = l.width ∧
    (l.setBlendingMode m).height = l.height :=
  ⟨rfl, rfl, rfl, rfl, rfl, rfl, rfl, rfl, rfl, rfl, rfl, rfl⟩

theorem applyLoop_buffer_alpha (reg : Registry) (mode : String) (op : ℚ)
    (L P : List Pixel) (k : ℕ) :
    (((applyLoop reg mode op L P).buffer).get? k).map Pixel.a = (P.get? k).map Pixel.a := by
  cases hm : reg mode with
  | none =>
    cases L with
    | nil => rfl
    | cons x xs =>
      cases P with
      | nil => simp [applyLoop, hm, CompositeResult.buffer]
      | cons y ys => simp [applyLoop, hm, CompositeResult.buffer]
  | some f =>
    rw [applyLoop_some reg mode f op hm]
    exact blendLoop_alpha f op L P k

/-- Claim C5: for every blending mode, opacity, layer buffer and parent
buffer, every alpha byte of the parent buffer is bit-identical before and
after `applyToParent` (on the error path as well as on completion). -/
theorem applyToParent_alpha_invariant (reg : Registry) (l : Layer) (c : CamanState) (k : ℕ) :
    (((l.applyToParent reg c).buffer).get? k).map Pixel.a =
      (c.parentData.get? k).map Pixel.a :=
  applyLoop_buffer_alpha reg l.options.blendingMode l.options.opacity c.pixelData c.parentData k

/-- Claim C3: under the engine contract that at composite time the buffer
the engine exposes as `pixelData` is the layer's own buffer, the blend
operands at every pixel index are the layer's own pixel and the pixel of
the buffer at index `length - 1` of the engine's `pixelStack`; the result
pixel is their `compositePixel`. -/
theorem applyToParent_operand_sources (reg : Registry) (f : BlendFn) (l : Layer) (c : CamanState)
    (hpd : c.pixelData = l.pixelData)
    (hf : reg l.options.blendingMode = some f)
    (k : ℕ) (lp pp : Pixel)
    (hl : l.pixelData.get? k = some lp)
    (hp : (c.pixelStack.getD (c.pixelStack.length - 1) []).get? k = some pp) :
    ∃ out, l.applyToParent reg c = .ok out ∧
      out.get? k = some (compositePixel f l.options.opacity lp pp) := by
  refine ⟨blendLoop f l.options.opacity c.pixelData c.parentData,
    applyLoop_some reg l.options.blendingMode f l.options.opacity hf c.pixelData c.parentData, ?_⟩
  rw [hpd]
  exact blendLoop_get? f l.options.opacity l.pixelData c.parentData k lp pp hl hp

/-- Witness for C3: in the spec scenario the blend operands of pixel 0 are
the layer pixel `(200, 50, 0, 255)` and the stack-top pixel
`(100, 100, 100, 255)`. -/
theorem applyToParent_operand_sources_witness :
    scenarioState.pixelData = scenarioLayer.pixelData ∧
    (∃ out, Layer.applyToParent scenarioLayer scenarioRegistry scenarioState = .ok out ∧
      out.get? 0 = some (compositePixel normalBlend scenarioLayer.options.opacity
        ⟨200, 50, 0, 255⟩ ⟨100, 100, 100, 255⟩)) :=
  ⟨rfl, applyToParent_operand_sources scenarioRegistry normalBlend scenarioLayer scenarioState
    rfl rfl 0 ⟨200, 50, 0, 255⟩ ⟨100, 100, 100, 255⟩ rfl rfl⟩

/-- Claim C4: when `options.blendingMode` is not registered (and the
buffer has at least one pixel, so the per-pixel loop runs), `applyToParent`
fails with the configuration error, and the parent buffer it leaves behind
is exactly its pre-composite contents; moreover any failing composite
whatsoever leaves the parent buffer in its pre-composite state. -/
theorem unregistered_mode_error (reg : Registry) (l : Layer) (c : CamanState)
    (h : reg l.options.blendingMode = none) (h2 : c.pixelData ≠ []) :
    l.applyToParent reg c = .err c.parentData ∧
    ∀ (reg' : Registry) (l' : Layer) (c' : CamanState) (res : List Pixel),
      Layer.applyToParent l' reg' c' = .err res → res = c'.parentData := by
  constructor
  · show applyLoop reg l.options.blendingMode l.options.opacity c.pixelData c.parentData =
      .err c.parentData
    cases hL : c.pixelData with
    | nil => exact absurd hL h2
    | cons x xs =>
      cases hPd : c.parentData with
      | nil => simp [applyLoop, h]
      | cons y ys => simp [applyLoop, h]
  · intro reg' l' c' res hres
    exact applyLoop_err reg' l'.options.blendingMode l'.options.opacity
      c'.pixelData c'.parentData res hres

/-- Witness for C4: with no blend mode registered, the scenario composite
fails and carries the untouched parent buffer. -/
theorem unregistered_mode_error_witness :
    emptyRegistry scenarioLayer.options.blendingMode = none ∧
    scenarioState.pixelData ≠ [] ∧
    Layer.applyToParent scenarioLayer emptyRegistry scenarioState = .err scenarioState.parentData :=
  ⟨rfl, by decide,
    (unregistered_mode_error emptyRegistry scenarioLayer scenarioState rfl (by decide)).1⟩

/-- Claim C6: for every blend mode (registered or not) and any buffer
contents with byte-valued parent channels, opacity `0` leaves the parent
buffer unchanged. -/
theorem zero_opacity_noop (reg : Registry) (l : Layer) (c : CamanState)
    (hop : l.options.opacity = 0)
    (hP : ∀ p ∈ c.parentData, p.r ≤ 255 ∧ p.g ≤ 255 ∧ p.b ≤ 255) :
    (l.applyToParent reg c).buffer = c.parentData := by
  unfold Layer.applyToParent
  rw [hop]
  cases hm : reg l.options.blendingMode with
  | none =>
    cases hL : c.pixelData with
    | nil => rfl
    | cons x xs =>
      cases hPd : c.parentData with
      | nil => simp [applyLoop, hm, CompositeResult.buffer]
      | cons y ys => simp [applyLoop, hm, CompositeResult.buffer]
  | some f =>
    rw [applyLoop_some reg l.options.blendingMode f 0 hm]
    show blendLoop f 0 c.pixelData c.parentData = c.parentData
    exact blendLoop_zero f c.pixelData c.parentData hP

/-- Witness for C6: at opacity `0` the scenario parent buffer is returned
bit-identical. -/
theorem zero_opacity_noop_witness :
    zeroOpacityLayer.options.opacity = 0 ∧
    (Layer.applyToParent zeroOpacityLayer scenarioRegistry scenarioState).buffer =
      scenarioState.parentData :=
  ⟨rfl, zero_opacity_noop scenarioRegistry zeroOpacityLayer scenarioState rfl (by decide)⟩

/-- Claim C7 (counterexample): a blend function that does produce an alpha
value, namely `0`, does not have that value used in the compositing
weight.  With layer pixel `(200, 50, 0, 255)`, parent `(100, 100, 100,
255)` and opacity `1`, the claim's weight would be `1 * (0 / 255) = 0`,
leaving the parent at `(100, 100, 100, 255)`; the source treats `0` as
falsy, substitutes the layer alpha `255`, and produces
`(200, 50, 0, 255)`. -/
theorem alpha_zero_counterexample :
    Layer.applyToParent zeroAlphaLayer zeroAlphaRegistry scenarioState =
      .ok [⟨200, 50, 0, 255⟩] ∧
    ([⟨200, 50, 0, 255⟩] : List Pixel) ≠ [⟨100, 100, 100, 255⟩] := by
  constructor
  · norm_num [Layer.applyToParent, applyLoop, zeroAlphaRegistry, zeroAlphaLayer, scenarioState,
      CamanState.parentData, compositePixel, toUint8Clamp, Util.clampRGB, defaultAlpha,
      zeroAlphaBlend, Int.toNat]
  · decide

/-- Claim C7 as amended: the blend result's alpha is replaced by the layer
pixel's alpha exactly when the blend function produced no alpha value or
produced the (falsy) alpha value `0`; a nonzero produced alpha is the one
used in the compositing weight `w = opacity * (result.a / 255)`. -/
theorem alpha_defaulting_falsy (f : BlendFn) (op : ℚ) (lp pp : Pixel) :
    (((f lp pp).a = none ∨ (f lp pp).a = some 0) →
      compositePixel f op lp pp =
        { r := toUint8Clamp ((pp.r : ℚ) - (((pp.r : ℚ) - Util.clampRGB (f lp pp).r) *
            (op * ((lp.a : ℚ) / 255))))
          g := toUint8Clamp ((pp.g : ℚ) - (((pp.g : ℚ) - Util.clampRGB (f lp pp).g) *
            (op * ((lp.a : ℚ) / 255))))
          b := toUint8Clamp ((pp.b : ℚ) - (((pp.b : ℚ) - Util.clampRGB (f lp pp).b) *
            (op * ((lp.a : ℚ) / 255))))
          a := pp.a }) ∧
    (∀ x : ℚ, (f lp pp).a = some x → x ≠ 0 →
      compositePixel f op lp pp =
        { r := toUint8Clamp ((pp.r : ℚ) - (((pp.r : ℚ) - Util.clampRGB (f lp pp).r) *
            (op * (x / 255))))
          g := toUint8Clamp ((pp.g : ℚ) - (((pp.g : ℚ) - Util.clampRGB (f lp pp).g) *
            (op * (x / 255))))
          b := toUint8Clamp ((pp.b : ℚ) - (((pp.b : ℚ) - Util.clampRGB (f lp pp).b) *
            (op * (x / 255))))
          a := pp.a }) := by
  constructor
  · intro h
    have ha : defaultAlpha (f lp pp).a lp.a = (lp.a : ℚ) := by
      rcases h with h | h <;> rw [h] <;> simp [defaultAlpha]
    simp only [compositePixel, ha]
  · intro x hx hxne
    have ha : defaultAlpha (f lp pp).a lp.a = x := by
      rw [hx]
      simp [defaultAlpha, hxne]
    simp only [compositePixel, ha]

/-- Witness for the amended C7: `zeroAlphaBlend` produces alpha `0`
(present but falsy), so the layer alpha `255` is the one composited,
yielding the full-opacity result. -/
theorem alpha_defaulting_falsy_witness :
    (zeroAlphaBlend ⟨200, 50, 0, 255⟩ ⟨100, 100, 100, 255⟩).a = some 0 ∧
    compositePixel zeroAlphaBlend 1 ⟨200, 50, 0, 255⟩ ⟨100, 100, 100, 255⟩ =
      ⟨200, 50, 0, 255⟩ := by
  refine ⟨rfl, ?_⟩
  have h := (alpha_defaulting_falsy zeroAlphaBlend 1 ⟨200, 50, 0, 255⟩
    ⟨100, 100, 100, 255⟩).1 (Or.inr rfl)
  rw [h]
  norm_num [toUint8Clamp, Util.clampRGB, zeroAlphaBlend, Int.toNat]

/-- Claim C8: for every blend function — including ones returning channel
values outside `[0, 255]` — every stored R, G and B value of the parent
buffer after `applyToParent` is a natural number at most `255`. -/
theorem channels_clamped (reg : Registry) (l : Layer) (c : CamanState)
    (hP : ∀ p ∈ c.parentData, p.r ≤ 255 ∧ p.g ≤ 255 ∧ p.b ≤ 255) :
    ∀ q ∈ (l.applyToParent reg c).buffer, q.r ≤ 255 ∧ q.g ≤ 255 ∧ q.b ≤ 255 := by
  unfold Layer.applyToParent
  cases hm : reg l.options.blendingMode with
  | none =>
    cases c.pixelData with
    | nil => exact hP
    | cons x xs =>
      cases hPd : c.parentData with
      | nil =>
        intro q hq
        simp [applyLoop, hm, CompositeResult.buffer] at hq
      | cons y ys =>
        rw [hPd] at hP
        intro q hq
        simp only [applyLoop, hm, CompositeResult.buffer] at hq
        exact hP q hq
  | some f =>
    rw [applyLoop_some reg l.options.blendingMode f l.options.opacity hm]
    exact blendLoop_rgb_le f l.options.opacity c.pixelData c.parentData hP

/-- Witness for C8: `wildBlend` returns `(1000, -40, 512)`; the stored
parent pixel is the clamped `(255, 0, 255)` with untouched alpha. -/
theorem channels_clamped_witness :
    (⟨255, 0, 255, 255⟩ : Pixel) ∈ (Layer.applyToParent wildLayer wildRegistry scenarioState).buffer ∧
    ((⟨255, 0, 255, 255⟩ : Pixel).r ≤ 255 ∧ (⟨255, 0, 255, 255⟩ : Pixel).g ≤ 255 ∧
      (⟨255, 0, 255, 255⟩ : Pixel).b ≤ 255) := by
  have hmem : (⟨255, 0, 255, 255⟩ : Pixel) ∈
      (Layer.applyToParent wildLayer wildRegistry scenarioState).buffer := by
    norm_num [Layer.applyToParent, applyLoop, wildRegistry, wildLayer, scenarioState,
      CamanState.parentData, compositePixel, toUint8Clamp, Util.clampRGB, defaultAlpha,
      wildBlend, Int.toNat, CompositeResult.buffer]
  exact ⟨hmem, channels_clamped wildRegistry wildLayer scenarioState (by decide)
    ⟨255, 0, 255, 255⟩ hmem⟩
